import Mathlib

/-!
Verification of the pose-analysis backend (`pose_analysis_backend`):
a FastAPI route `analyze_image` that forwards uploaded bytes to the
adapter `analyze_pose`, which decodes them with PIL, converts the pixel
array with `cv2.cvtColor(..., COLOR_RGB2BGR)`, runs a mediapipe
`Pose(static_image_mode=True)` inference pass, and formats the detected
landmarks as a JSON-like dictionary.

The external collaborators (PIL decoding and the mediapipe model) are
modelled as parameters of the pipeline, bundled into an `Env`; the
repository-authored glue (`np.array` on an RGB PIL image, the
`COLOR_RGB2BGR` conversion, the branching on `pose_landmarks`, the
landmark formatting loop, and the HTTP route) is embedded concretely.
Floating-point landmark values are modelled as rationals: the adapter
performs no arithmetic on them, only copies.
-/

namespace PoseBackend

/-- Raw image bytes received over HTTP (`image_data: bytes`). -/
abbrev ByteData := List Nat

/-- One pixel of a decoded image, with its true color channels named. -/
structure RGBPixel where
  r : Nat
  g : Nat
  b : Nat
deriving DecidableEq, Repr

/-- A decoded three-channel image, as produced by
`Image.open(io.BytesIO(image_data)).convert("RGB")`. -/
structure RGBImage where
  rows : List (List RGBPixel)
deriving DecidableEq, Repr

/-- A `height x width x 3` numpy array: rows of channel triples, in the
order the array stores them. -/
abbrev NDArray := List (List (Nat × Nat × Nat))

/-- The call `np.array(image)` on a PIL image in RGB mode: each pixel becomes the
triple `(R, G, B)`. -/
def np_array (image : RGBImage) : NDArray :=
  image.rows.map (fun row => row.map (fun p => (p.r, p.g, p.b)))

/-- The call `cv2.cvtColor(a, cv2.COLOR_RGB2BGR)`: swap the first and third
channel of every pixel, turning an `(R, G, B)` array into `(B, G, R)`. -/
def cvtColor_RGB2BGR (a : NDArray) : NDArray :=
  a.map (fun row => row.map (fun c => (c.2.2, c.2.1, c.1)))

/-- Modelled from the spec: the external pose model consumes "a single
RGB pixel grid" (spec section 6), so for a decoded RGB image the pixel
array the model expects is its `(R, G, B)` channel-triple layout. The
model's own code (mediapipe) is not part of this repository. -/
def modelRequiredGrid (image : RGBImage) : NDArray := np_array image

/-- One landmark as reported by the model: normalized coordinates and a
visibility score. The adapter only copies these values. -/
structure Landmark where
  x : Rat
  y : Rat
  z : Rat
  visibility : Rat
deriving DecidableEq, Repr

/-- A JSON-like value, the shape of the Python dictionaries the adapter
builds and the route returns. -/
inductive JValue where
  | jbool (b : Bool)
  | jint (n : Nat)
  | jnum (q : Rat)
  | jstr (s : String)
  | jarr (elems : List JValue)
  | jobj (fields : List (String × JValue))
deriving Repr

/-- The external collaborators of the adapter, as black boxes:
`decode` is `Image.open(io.BytesIO(...)).convert("RGB")` (`none` models
the decoding exception on undecodable bytes), and `process` is
`mp_pose.Pose(static_image_mode=True).process(...).pose_landmarks`
(`none` models a `None` landmark set, `some lms` a present landmark
message whose repeated `landmark` field holds `lms`). -/
structure Env where
  decode : ByteData → Option RGBImage
  process : NDArray → Option (List Landmark)

/-- The error outcomes `analyze_pose` can raise: PIL's decoding
exception on bytes it cannot identify as an image. -/
inductive PoseError where
  | decodeError
deriving DecidableEq, Repr

/-- The pixel array that `analyze_pose` hands to `pose.process`:
the decoded RGB image, converted with `cv2.cvtColor(..., COLOR_RGB2BGR)`. -/
def gridPassedToModel (env : Env) (image_data : ByteData) : Option NDArray :=
  (env.decode image_data).map (fun image => cvtColor_RGB2BGR (np_array image))

/-- The failure dictionary `{"success": False, "message": "No pose detected"}`. -/
def noPoseDetected : JValue :=
  .jobj [("success", .jbool false), ("message", .jstr "No pose detected")]

/-- One keypoint dictionary of the success result, exactly as the loop
body builds it: `{"id": id, "x": .., "y": .., "z": .., "visibility": ..}`. -/
def keypointRecord (id : Nat) (landmark : Landmark) : JValue :=
  .jobj [("id", .jint id), ("x", .jnum landmark.x), ("y", .jnum landmark.y),
         ("z", .jnum landmark.z), ("visibility", .jnum landmark.visibility)]

/-- The success dictionary: `enumerate(results.pose_landmarks.landmark)`
formatted into `{"success": True, "keypoints": [...]}`. -/
def successResult (lms : List Landmark) : JValue :=
  .jobj [("success", .jbool true),
         ("keypoints", .jarr (lms.enum.map (fun p => keypointRecord p.1 p.2)))]

/-- The adapter `analyze_pose(image_data)`: decode (raising on failure), convert the
channel order, run the model once, and either report "No pose detected"
(when `pose_landmarks` is `None`) or format every landmark positionally. -/
def analyze_pose (env : Env) (image_data : ByteData) : Except PoseError JValue :=
  match gridPassedToModel env image_data with
  | none => .error .decodeError
  | some grid =>
    match env.process grid with
    | none => .ok noPoseDetected
    | some lms => .ok (successResult lms)

/-- The uploaded file of the route: FastAPI's `UploadFile`, holding the
full request body. -/
structure UploadFile where
  contents : ByteData

/-- The call `await file.read()`: the entire uploaded body, read into memory. -/
def UploadFile.read (f : UploadFile) : ByteData := f.contents

/-- An HTTP response: status code and JSON body. -/
structure HttpResponse where
  status : Nat
  body : JValue
deriving Repr

/-- The route `POST /analyze/image`: read the whole upload, call `analyze_pose` on
the raw bytes, and return the resulting dictionary, which FastAPI
serializes with the default success status 200. The route installs no
exception handler, so a raised error propagates unchanged. -/
def analyze_image (env : Env) (file : UploadFile) : Except PoseError HttpResponse :=
  let contents := file.read
  match analyze_pose env contents with
  | .error e => .error e
  | .ok result => .ok ⟨200, result⟩

/-- Look up a key in a field list, first match (Python dictionaries hold
each key once). -/
def lookupField (key : String) : List (String × JValue) → Option JValue
  | [] => none
  | (k, v) :: rest => if k = key then some v else lookupField key rest

/-- Look up a key of a JSON object; `none` on other values. -/
def jlookup (v : JValue) (key : String) : Option JValue :=
  match v with
  | .jobj fields => lookupField key fields
  | _ => none

/-- The list of keypoint dictionaries of a returned result, when the
result is a returned object carrying a "keypoints" array. -/
def resultKeypoints (r : Except PoseError JValue) : Option (List JValue) :=
  match r with
  | .error _ => none
  | .ok v =>
    match jlookup v "keypoints" with
    | some (.jarr kps) => some kps
    | _ => none

/-- The "id" fields of a result's keypoint records, in order. -/
def resultIds (r : Except PoseError JValue) : Option (List (Option JValue)) :=
  (resultKeypoints r).map (fun kps => kps.map (fun k => jlookup k "id"))

/-- A chosen field of each keypoint record of a result, in order. -/
def fieldColumn (r : Except PoseError JValue) (key : String) :
    Option (List (Option JValue)) :=
  (resultKeypoints r).map (fun kps => kps.map (fun k => jlookup k key))

/-- The "success" tag of a returned result. -/
def successTag (r : Except PoseError JValue) : Option JValue :=
  match r with
  | .error _ => none
  | .ok v => jlookup v "success"

/-- The number of keypoint records of a returned result. -/
def keypointCount (r : Except PoseError JValue) : Option Nat :=
  (resultKeypoints r).map List.length

/-! ### Concrete instances used to evaluate the pipeline -/

/-- A pure-red pixel: `R = 255, G = 0, B = 0`. -/
def redPixel : RGBPixel := ⟨255, 0, 0⟩

/-- A 1-by-1 pure-red image, a concrete decodable input. -/
def redImage : RGBImage := ⟨[[redPixel]]⟩

/-- A concrete decoder: the byte string `[1]` decodes to the red image,
anything else fails to decode. -/
def decodeRed : ByteData → Option RGBImage :=
  fun b => if b = [1] then some redImage else none

/-- A concrete landmark with in-range coordinates: x = 1, y = 0,
z = -2, visibility = 1. -/
def lmSample : Landmark := ⟨1, 0, -2, 1⟩

/-- Environment whose model never detects a pose. -/
def envNoPose : Env := ⟨decodeRed, fun _ => none⟩

/-- Environment whose model reports a single landmark. -/
def envOnePose : Env := ⟨decodeRed, fun _ => some [lmSample]⟩

/-- Environment whose model reports the full 33-landmark schema. -/
def envFullPose : Env := ⟨decodeRed, fun _ => some (List.replicate 33 lmSample)⟩

/-- Environment whose model reports a present-but-empty landmark set. -/
def envEmptyPose : Env := ⟨decodeRed, fun _ => some []⟩

/-! ### Claims -/

/-- C1: the claim says the pixel grid handed to `pose.process` is in the
model's expected channel order; the model expects an RGB grid (spec
section 6). On the decodable 1-by-1 pure-red image, the code hands the
model the BGR grid `[[(0, 0, 255)]]`, which is not the required RGB grid
`[[(255, 0, 0)]]`: the `COLOR_RGB2BGR` conversion produces the opposite
of the required order. -/
theorem C1_grid_handed_to_model_not_in_required_order :
    gridPassedToModel envNoPose [1] = some [[(0, 0, 255)]] ∧
    modelRequiredGrid redImage = [[(255, 0, 0)]] ∧
    gridPassedToModel envNoPose [1] ≠ some (modelRequiredGrid redImage) := by
  refine ⟨by decide, by decide, by decide⟩

/-- C2: whenever the model detects no landmarks (`pose_landmarks` is
`None`), `analyze_pose` returns (not raises) exactly
`{"success": false, "message": "No pose detected"}`. -/
theorem C2_no_pose_detected_failure (env : Env) (b : ByteData) (image : RGBImage)
    (hdec : env.decode b = some image)
    (hproc : env.process (cvtColor_RGB2BGR (np_array image)) = none) :
    analyze_pose env b = .ok (JValue.jobj
      [("success", JValue.jbool false), ("message", JValue.jstr "No pose detected")]) := by
  simp [analyze_pose, gridPassedToModel, hdec, hproc, noPoseDetected]

/-- Witness for C2 at the concrete red image and a model detecting nothing. -/
theorem C2_no_pose_detected_failure_witness :
    analyze_pose envNoPose [1] = .ok (JValue.jobj
      [("success", JValue.jbool false), ("message", JValue.jstr "No pose detected")]) :=
  C2_no_pose_detected_failure envNoPose [1] redImage rfl rfl

/-- C4: on bytes the decoder cannot decode, `analyze_pose` raises the
decoding error instead of returning a value, the route propagates it, and
the request never produces a success-shaped (`.ok`) body. -/
theorem C4_decode_error_propagates (env : Env) (file : UploadFile)
    (hdec : env.decode file.read = none) :
    analyze_pose env file.read = .error PoseError.decodeError ∧
    analyze_image env file = .error PoseError.decodeError ∧
    ∀ resp : HttpResponse, analyze_image env file ≠ .ok resp := by
  have h1 : analyze_pose env file.read = .error PoseError.decodeError := by
    simp [analyze_pose, gridPassedToModel, hdec]
  refine ⟨h1, ?_, ?_⟩
  · simp [analyze_image, h1]
  · intro resp
    simp [analyze_image, h1]

/-- Witness for C4 at the empty byte string, which the decoder rejects. -/
theorem C4_decode_error_propagates_witness :
    analyze_pose envNoPose (UploadFile.read ⟨[]⟩) = .error PoseError.decodeError ∧
    analyze_image envNoPose ⟨[]⟩ = .error PoseError.decodeError ∧
    ∀ resp : HttpResponse, analyze_image envNoPose ⟨[]⟩ ≠ .ok resp :=
  C4_decode_error_propagates envNoPose ⟨[]⟩ rfl

/-- C6: the route reads the whole uploaded body, passes the raw bytes
unchanged to `analyze_pose`, and whenever `analyze_pose` returns a value
(either variant) the route's response carries exactly that value as body
with the success status 200. -/
theorem C6_route_returns_adapter_result (env : Env) (file : UploadFile) (v : JValue)
    (h : analyze_pose env file.contents = .ok v) :
    file.read = file.contents ∧
    analyze_image env file = .ok ⟨200, v⟩ := by
  refine ⟨rfl, ?_⟩
  simp [analyze_image, UploadFile.read, h]

/-- Witness for C6 at a one-landmark success result. -/
theorem C6_route_returns_adapter_result_witness :
    UploadFile.read ⟨[1]⟩ = [1] ∧
    analyze_image envOnePose ⟨[1]⟩ = .ok ⟨200, successResult [lmSample]⟩ :=
  C6_route_returns_adapter_result envOnePose ⟨[1]⟩ (successResult [lmSample]) rfl

/-- C10: when the model returns a present-but-empty landmark collection
(`pose_landmarks` non-null with zero landmarks — a protobuf message with
no `__bool__`, hence truthy), `analyze_pose` returns the success variant
with an empty keypoints list, not the "No pose detected" failure. -/
theorem C10_empty_landmarks_yield_empty_success (env : Env) (b : ByteData)
    (image : RGBImage)
    (hdec : env.decode b = some image)
    (hproc : env.process (cvtColor_RGB2BGR (np_array image)) = some []) :
    analyze_pose env b = .ok (JValue.jobj
      [("success", JValue.jbool true), ("keypoints", JValue.jarr [])]) ∧
    analyze_pose env b ≠ .ok noPoseDetected := by
  have h1 : analyze_pose env b = .ok (successResult []) := by
    simp [analyze_pose, gridPassedToModel, hdec, hproc]
  constructor
  · rw [h1]; rfl
  · rw [h1]
    simp [successResult, noPoseDetected]

/-- Witness for C10 at the concrete red image and an empty landmark set. -/
theorem C10_empty_landmarks_yield_empty_success_witness :
    analyze_pose envEmptyPose [1] = .ok (JValue.jobj
      [("success", JValue.jbool true), ("keypoints", JValue.jarr [])]) ∧
    analyze_pose envEmptyPose [1] ≠ .ok noPoseDetected :=
  C10_empty_landmarks_yield_empty_success envEmptyPose [1] redImage rfl rfl

/-- Helper: the second component of an `enum` entry is an element of the
underlying list. -/
theorem snd_mem_of_mem_enum {α : Type} {l : List α} {p : Nat × α}
    (hp : p ∈ l.enum) : p.2 ∈ l := by
  have h := List.mem_map_of_mem Prod.snd hp
  rwa [List.enum_map_snd] at h

/-- Helper: on a success result built from `lms`, the extracted keypoint
list is exactly the formatted enumeration of `lms`. -/
theorem resultKeypoints_of_success (env : Env) (b : ByteData) (image : RGBImage)
    (lms : List Landmark)
    (hdec : env.decode b = some image)
    (hproc : env.process (cvtColor_RGB2BGR (np_array image)) = some lms) :
    resultKeypoints (analyze_pose env b) =
      some (lms.enum.map (fun p => keypointRecord p.1 p.2)) := by
  simp [analyze_pose, gridPassedToModel, hdec, hproc, resultKeypoints,
        successResult, jlookup, lookupField]

/-- C3: in a success result the "id" field of the k-th keypoint record is
`k`: the id sequence is exactly `0 .. lms.length - 1` in order, so ids
are unique and preserve the model's landmark order (33 landmarks give
ids 0..32). -/
theorem C3_ids_positionally_assigned (env : Env) (b : ByteData) (image : RGBImage)
    (lms : List Landmark)
    (hdec : env.decode b = some image)
    (hproc : env.process (cvtColor_RGB2BGR (np_array image)) = some lms) :
    resultIds (analyze_pose env b) =
      some ((List.range lms.length).map (fun i => some (JValue.jint i))) := by
  rw [resultIds, resultKeypoints_of_success env b image lms hdec hproc]
  rw [← List.enum_map_fst lms]
  simp only [Option.map_some', Option.some.injEq, List.map_map]
  refine List.map_congr_left ?_
  intro p _
  simp [keypointRecord, jlookup, lookupField]

/-- Witness for C3 at a model reporting the full 33-landmark schema:
the ids are exactly 0..32. -/
theorem C3_ids_positionally_assigned_witness :
    resultIds (analyze_pose envFullPose [1]) =
      some ((List.range 33).map (fun i => some (JValue.jint i))) := by
  have h := C3_ids_positionally_assigned envFullPose [1] redImage
    (List.replicate 33 lmSample) rfl rfl
  simpa using h

/-- C5: in a success result, the "x", "y", "z" and "visibility" fields of
the keypoint records are, in order, exactly the model's landmark values,
unmodified. -/
theorem C5_landmark_values_passed_through (env : Env) (b : ByteData)
    (image : RGBImage) (lms : List Landmark)
    (hdec : env.decode b = some image)
    (hproc : env.process (cvtColor_RGB2BGR (np_array image)) = some lms) :
    fieldColumn (analyze_pose env b) "x" =
      some (lms.map (fun lm => some (JValue.jnum lm.x))) ∧
    fieldColumn (analyze_pose env b) "y" =
      some (lms.map (fun lm => some (JValue.jnum lm.y))) ∧
    fieldColumn (analyze_pose env b) "z" =
      some (lms.map (fun lm => some (JValue.jnum lm.z))) ∧
    fieldColumn (analyze_pose env b) "visibility" =
      some (lms.map (fun lm => some (JValue.jnum lm.visibility))) := by
  have hkps := resultKeypoints_of_success env b image lms hdec hproc
  refine ⟨?_, ?_, ?_, ?_⟩
  all_goals
    rw [fieldColumn, hkps]
    simp only [Option.map_some', Option.some.injEq, List.map_map]
    conv_rhs => rw [← List.enum_map_snd lms, List.map_map]
    refine List.map_congr_left ?_
    intro p _
    simp [keypointRecord, jlookup, lookupField]

/-- Witness for C5 at a single concrete landmark. -/
theorem C5_landmark_values_passed_through_witness :
    fieldColumn (analyze_pose envOnePose [1]) "x" =
      some ([lmSample].map (fun lm => some (JValue.jnum lm.x))) ∧
    fieldColumn (analyze_pose envOnePose [1]) "y" =
      some ([lmSample].map (fun lm => some (JValue.jnum lm.y))) ∧
    fieldColumn (analyze_pose envOnePose [1]) "z" =
      some ([lmSample].map (fun lm => some (JValue.jnum lm.z))) ∧
    fieldColumn (analyze_pose envOnePose [1]) "visibility" =
      some ([lmSample].map (fun lm => some (JValue.jnum lm.visibility))) :=
  C5_landmark_values_passed_through envOnePose [1] redImage [lmSample] rfl rfl

/-- C7: in a success result every keypoint record's "x", "y" and
"visibility" values lie in [0, 1] and its "z" value is a (finite)
numeric value, under the model contract that the landmark values the
external model reports are so normalized. -/
theorem C7_value_ranges (env : Env) (b : ByteData) (image : RGBImage)
    (lms : List Landmark)
    (hdec : env.decode b = some image)
    (hproc : env.process (cvtColor_RGB2BGR (np_array image)) = some lms)
    (hrange : ∀ lm ∈ lms,
      (0 ≤ lm.x ∧ lm.x ≤ 1) ∧ (0 ≤ lm.y ∧ lm.y ≤ 1) ∧
      (0 ≤ lm.visibility ∧ lm.visibility ≤ 1)) :
    ∃ kps : List JValue,
      resultKeypoints (analyze_pose env b) = some kps ∧
      ∀ k ∈ kps,
        (∃ q : Rat, jlookup k "x" = some (JValue.jnum q) ∧ 0 ≤ q ∧ q ≤ 1) ∧
        (∃ q : Rat, jlookup k "y" = some (JValue.jnum q) ∧ 0 ≤ q ∧ q ≤ 1) ∧
        (∃ q : Rat, jlookup k "visibility" = some (JValue.jnum q) ∧ 0 ≤ q ∧ q ≤ 1) ∧
        (∃ q : Rat, jlookup k "z" = some (JValue.jnum q)) := by
  refine ⟨lms.enum.map (fun p => keypointRecord p.1 p.2),
    resultKeypoints_of_success env b image lms hdec hproc, ?_⟩
  intro k hk
  rw [List.mem_map] at hk
  obtain ⟨p, hp, rfl⟩ := hk
  have hmem : p.2 ∈ lms := snd_mem_of_mem_enum hp
  obtain ⟨hx, hy, hvis⟩ := hrange p.2 hmem
  refine ⟨⟨p.2.x, ?_, hx.1, hx.2⟩, ⟨p.2.y, ?_, hy.1, hy.2⟩,
          ⟨p.2.visibility, ?_, hvis.1, hvis.2⟩, ⟨p.2.z, ?_⟩⟩
  all_goals simp [keypointRecord, jlookup, lookupField]

/-- Witness for C7 at a single concrete in-range landmark. -/
theorem C7_value_ranges_witness :
    ∃ kps : List JValue,
      resultKeypoints (analyze_pose envOnePose [1]) = some kps ∧
      ∀ k ∈ kps,
        (∃ q : Rat, jlookup k "x" = some (JValue.jnum q) ∧ 0 ≤ q ∧ q ≤ 1) ∧
        (∃ q : Rat, jlookup k "y" = some (JValue.jnum q) ∧ 0 ≤ q ∧ q ≤ 1) ∧
        (∃ q : Rat, jlookup k "visibility" = some (JValue.jnum q) ∧ 0 ≤ q ∧ q ≤ 1) ∧
        (∃ q : Rat, jlookup k "z" = some (JValue.jnum q)) :=
  C7_value_ranges envOnePose [1] redImage [lmSample] rfl rfl (by decide)

/-- C8: two calls of `analyze_pose` on the same bytes, with the decoder
and the model treated as deterministic functions (two environments that
agree extensionally), yield the same success tag, keypoint count and id
sequence. -/
theorem C8_same_input_same_outcome (env1 env2 : Env) (b : ByteData)
    (hdec : env1.decode = env2.decode) (hproc : env1.process = env2.process) :
    successTag (analyze_pose env1 b) = successTag (analyze_pose env2 b) ∧
    keypointCount (analyze_pose env1 b) = keypointCount (analyze_pose env2 b) ∧
    resultIds (analyze_pose env1 b) = resultIds (analyze_pose env2 b) := by
  have h : analyze_pose env1 b = analyze_pose env2 b := by
    cases env1
    cases env2
    cases hdec
    cases hproc
    rfl
  rw [h]
  exact ⟨rfl, rfl, rfl⟩

/-- Witness for C8 at the one-landmark environment. -/
theorem C8_same_input_same_outcome_witness :
    successTag (analyze_pose envOnePose [1]) = successTag (analyze_pose envOnePose [1]) ∧
    keypointCount (analyze_pose envOnePose [1]) = keypointCount (analyze_pose envOnePose [1]) ∧
    resultIds (analyze_pose envOnePose [1]) = resultIds (analyze_pose envOnePose [1]) :=
  C8_same_input_same_outcome envOnePose envOnePose [1] rfl rfl

/-- C9: every value `analyze_pose` returns (as opposed to raises) has
exactly one of the two shapes: the fixed two-field failure object
(carrying no "keypoints"), or a success object whose "keypoints" array
holds records with exactly the keys id, x, y, z, visibility (and which
carries no "message"). -/
theorem C9_result_is_one_of_two_shapes (env : Env) (b : ByteData) (v : JValue)
    (h : analyze_pose env b = Except.ok v) :
    (v = JValue.jobj [("success", JValue.jbool false), ("message", JValue.jstr "No pose detected")]
      ∧ jlookup v "keypoints" = none)
    ∨ (∃ kps : List JValue,
        v = JValue.jobj [("success", JValue.jbool true), ("keypoints", JValue.jarr kps)]
        ∧ jlookup v "message" = none
        ∧ ∀ k ∈ kps, ∃ i x y z vis, k = JValue.jobj
            [("id", JValue.jint i), ("x", JValue.jnum x), ("y", JValue.jnum y),
             ("z", JValue.jnum z), ("visibility", JValue.jnum vis)]) := by
  rcases hgrid : gridPassedToModel env b with _ | grid
  · simp [analyze_pose, hgrid] at h
  · simp only [analyze_pose, hgrid] at h
    rcases hproc : env.process grid with _ | lms
    · simp only [hproc, Except.ok.injEq] at h
      subst h
      left
      exact ⟨rfl, by simp [noPoseDetected, jlookup, lookupField]⟩
    · simp only [hproc, Except.ok.injEq] at h
      subst h
      right
      refine ⟨_, rfl, ?_, ?_⟩
      · simp [successResult, jlookup, lookupField]
      · intro k hk
        rw [List.mem_map] at hk
        obtain ⟨p, hp, rfl⟩ := hk
        exact ⟨p.1, p.2.x, p.2.y, p.2.z, p.2.visibility, rfl⟩

/-- Witness for C9 at a concrete success result. -/
theorem C9_result_is_one_of_two_shapes_witness :
    (successResult [lmSample] = JValue.jobj
        [("success", JValue.jbool false), ("message", JValue.jstr "No pose detected")]
      ∧ jlookup (successResult [lmSample]) "keypoints" = none)
    ∨ (∃ kps : List JValue,
        successResult [lmSample] = JValue.jobj
          [("success", JValue.jbool true), ("keypoints", JValue.jarr kps)]
        ∧ jlookup (successResult [lmSample]) "message" = none
        ∧ ∀ k ∈ kps, ∃ i x y z vis, k = JValue.jobj
            [("id", JValue.jint i), ("x", JValue.jnum x), ("y", JValue.jnum y),
             ("z", JValue.jnum z), ("visibility", JValue.jnum vis)]) :=
  C9_result_is_one_of_two_shapes envOnePose [1] (successResult [lmSample]) rfl

end PoseBackend
